import Mathlib

/-!
Shallow embedding of the message normalization and routing pipeline of
src/effingham_supabase.py: the timestamp normalizer to_est, and the
on_message callback (envelope extraction, identity upserts, brand routing,
reading inserts), together with an explicit database state and an
effect/log trace so that persistence behaviour is provable.
-/

/-- JSON values as produced by json.loads: Python None, bool, number
(modelled as a rational), str, list, dict (association list with unique
keys, as Python dicts have). -/
inductive JVal where
  | null
  | bool (b : Bool)
  | num (q : Rat)
  | str (s : String)
  | arr (xs : List JVal)
  | obj (kvs : List (String × JVal))

mutual

/-- Structural equality on JSON values. -/
def jeq : JVal → JVal → Bool
  | .null, .null => true
  | .bool a, .bool b => a == b
  | .num a, .num b => a == b
  | .str a, .str b => a == b
  | .arr xs, .arr ys => jeqList xs ys
  | .obj xs, .obj ys => jeqKVs xs ys
  | _, _ => false

/-- Structural equality on lists of JSON values. -/
def jeqList : List JVal → List JVal → Bool
  | [], [] => true
  | x :: xs, y :: ys => jeq x y && jeqList xs ys
  | _, _ => false

/-- Structural equality on key-value lists. -/
def jeqKVs : List (String × JVal) → List (String × JVal) → Bool
  | [], [] => true
  | (k, v) :: xs, (k2, v2) :: ys => k == k2 && jeq v v2 && jeqKVs xs ys
  | _, _ => false

end

mutual

theorem jeq_iff : ∀ a b, jeq a b = true ↔ a = b
  | .null, b => by cases b <;> simp [jeq]
  | .bool x, b => by cases b <;> simp [jeq]
  | .num x, b => by cases b <;> simp [jeq]
  | .str x, b => by cases b <;> simp [jeq]
  | .arr xs, b => by
      cases b <;> simp [jeq]
      exact jeqList_iff xs _
  | .obj xs, b => by
      cases b <;> simp [jeq]
      exact jeqKVs_iff xs _

theorem jeqList_iff : ∀ xs ys, jeqList xs ys = true ↔ xs = ys
  | [], ys => by cases ys <;> simp [jeqList]
  | x :: xs, ys => by
      cases ys with
      | nil => simp [jeqList]
      | cons y ys => simp [jeqList, jeq_iff x y, jeqList_iff xs ys]

theorem jeqKVs_iff : ∀ xs ys, jeqKVs xs ys = true ↔ xs = ys
  | [], ys => by cases ys <;> simp [jeqKVs]
  | (k, v) :: xs, ys => by
      cases ys with
      | nil => simp [jeqKVs]
      | cons y ys =>
          obtain ⟨k2, v2⟩ := y
          simp [jeqKVs, jeq_iff v v2, jeqKVs_iff xs ys, and_assoc]

end

instance : DecidableEq JVal := fun a b => decidable_of_iff _ (jeq_iff a b)

/-- Python truthiness of a json.loads value: None, False, 0, empty string,
empty list and empty dict are falsy. -/
def truthy : JVal → Bool
  | .null => false
  | .bool b => b
  | .num q => if q = 0 then false else true
  | .str s => if s = "" then false else true
  | .arr xs => if xs = [] then false else true
  | .obj kvs => if kvs = [] then false else true

/-- First binding of a key in an association list (keys are unique in a
dict produced by json.loads, so first = only). -/
def jlookup : List (String × JVal) → String → Option JVal
  | [], _ => none
  | (k, v) :: rest, key => if k = key then some v else jlookup rest key

/-- Python d.get(k): on a dict, the value (None when the key is absent);
on any non-dict receiver the attribute access raises (AttributeError),
modelled as the error case. -/
def pyGet : JVal → String → Except Unit JVal
  | .obj kvs, k => .ok ((jlookup kvs k).getD .null)
  | _, _ => .error ()

/-- Python d.get(k, default): like pyGet but the supplied default replaces
an absent key. -/
def pyGetD : JVal → String → JVal → Except Unit JVal
  | .obj kvs, k, dflt => .ok ((jlookup kvs k).getD dflt)
  | _, _, _ => .error ()

/-- Python `a or b`: a when a is truthy, else b. -/
def pyOr (a b : JVal) : JVal :=
  if truthy a then a else b

/-- Python `v == "lit"` where the right side is a string literal: true only
for an equal string (no cross-type equality with a str). -/
def pyEqStr (v : JVal) (s : String) : Bool :=
  match v with
  | .str t => if t = s then true else false
  | _ => false

/-- Python `v == n` where the right side is an int literal: numbers compare
by value and bools compare as 0/1 (bool is an int subtype in Python). -/
def pyEqNum (v : JVal) (n : Rat) : Bool :=
  match v with
  | .num q => if q = n then true else false
  | .bool b => if (if b then (1 : Rat) else 0) = n then true else false
  | _ => false

/-- Leap year per the proleptic Gregorian calendar used by Python datetime. -/
def isLeap (y : Int) : Bool :=
  (y % 4 = 0 && y % 100 ≠ 0) || y % 400 = 0

/-- Days in a month, 0 for an invalid month number. -/
def daysInMonth (y : Int) (m : Nat) : Nat :=
  match m with
  | 1 => 31
  | 2 => if isLeap y then 29 else 28
  | 3 => 31
  | 4 => 30
  | 5 => 31
  | 6 => 30
  | 7 => 31
  | 8 => 31
  | 9 => 30
  | 10 => 31
  | 11 => 30
  | 12 => 31
  | _ => 0

/-- Field ranges accepted by the datetime constructor: these are exactly
the checks that make datetime.fromisoformat succeed on a string whose
shape already parsed (out-of-range fields raise ValueError). -/
def validDt (y mo d h mi s : Nat) : Bool :=
  1 ≤ y && y ≤ 9999 && 1 ≤ mo && mo ≤ 12 && 1 ≤ d &&
    d ≤ daysInMonth (y : Int) mo && h ≤ 23 && mi ≤ 59 && s ≤ 59

/-- Days from civil date to days since 1970-01-01 (proleptic Gregorian);
all intermediate operands are nonnegative for the years 1..9999 in scope,
where Euclidean and truncating division agree. -/
def daysFromCivil (y m d : Int) : Int :=
  let y2 := if m ≤ 2 then y - 1 else y
  let era : Int := (if 0 ≤ y2 then y2 else y2 - 399) / 400
  let yoe : Int := y2 - era * 400
  let doy : Int := (153 * (if 2 < m then m - 3 else m + 9) + 2) / 5 + d - 1
  let doe : Int := yoe * 365 + yoe / 4 - yoe / 100 + doy
  era * 146097 + doe - 719468

/-- Inverse of daysFromCivil: civil (year, month, day) of an epoch day. -/
def civilFromDays (z0 : Int) : Int × Int × Int :=
  let z := z0 + 719468
  let era : Int := (if 0 ≤ z then z else z - 146096) / 146097
  let doe : Int := z - era * 146097
  let yoe : Int := (doe - doe / 1460 + doe / 36524 - doe / 146096) / 365
  let y : Int := yoe + era * 400
  let doy : Int := doe - (365 * yoe + yoe / 4 - yoe / 100)
  let mp : Int := (5 * doy + 2) / 153
  let d : Int := doy - (153 * mp + 2) / 5 + 1
  let m : Int := if mp < 10 then mp + 3 else mp - 9
  (if m ≤ 2 then y + 1 else y, m, d)

/-- Epoch day of the first Sunday on or after epoch day z
(1970-01-01, epoch day 0, was a Thursday). -/
def firstSundayOnOrAfter (z : Int) : Int :=
  z + ((7 - ((z + 4) % 7)) % 7)

/-- UTC instant (seconds) at which US daylight saving time starts in year y:
second Sunday of March, 02:00 EST = 07:00 UTC. Models the tzdata rule for
America/New_York in force since 2007, the era all claims range over. -/
def dstStartUTC (y : Int) : Int :=
  (firstSundayOnOrAfter (daysFromCivil y 3 1) + 7) * 86400 + 7 * 3600

/-- UTC instant (seconds) at which US daylight saving time ends in year y:
first Sunday of November, 02:00 EDT = 06:00 UTC. -/
def dstEndUTC (y : Int) : Int :=
  firstSundayOnOrAfter (daysFromCivil y 11 1) * 86400 + 6 * 3600

/-- Civil year (UTC) containing the instant t (seconds since epoch). -/
def utcYear (t : Int) : Int :=
  (civilFromDays (t / 86400)).1

/-- Whether America/New_York observes daylight saving time at UTC instant t. -/
def isNYDST (t : Int) : Bool :=
  decide (dstStartUTC (utcYear t) ≤ t) && decide (t < dstEndUTC (utcYear t))

/-- UTC offset (seconds) of America/New_York at UTC instant t:
-4h during daylight saving, -5h otherwise. -/
def nyOffsetSecs (t : Int) : Int :=
  if isNYDST t then -4 * 3600 else -5 * 3600

/-- Two-digit zero-padded decimal rendering. -/
def pad2 (n : Nat) : String :=
  String.mk [Nat.digitChar (n / 10 % 10), Nat.digitChar (n % 10)]

/-- Four-digit zero-padded decimal rendering. -/
def pad4 (n : Nat) : String :=
  String.mk [Nat.digitChar (n / 1000 % 10), Nat.digitChar (n / 100 % 10),
             Nat.digitChar (n / 10 % 10), Nat.digitChar (n % 10)]

/-- strftime('%Y-%m-%d %H:%M:%S') of the civil datetime t seconds since
epoch (in the clock's own frame). -/
def fmtCivil (t : Int) : String :=
  let z := t / 86400
  let sod := (t % 86400).toNat
  let c := civilFromDays z
  pad4 c.1.toNat ++ "-" ++ pad2 c.2.1.toNat ++ "-" ++ pad2 c.2.2.toNat ++ " " ++
    pad2 (sod / 3600) ++ ":" ++ pad2 (sod / 60 % 60) ++ ":" ++ pad2 (sod % 60)

/-- Rendering of UTC instant t as an America/New_York civil timestamp,
as astimezone(ZoneInfo America/New_York) followed by strftime does. -/
def toNY (t : Int) : String :=
  fmtCivil (t + nyOffsetSecs t)

/-- UTC instant (seconds since epoch) of a civil datetime read as UTC. -/
def epochSecs (y mo d h mi s : Nat) : Int :=
  daysFromCivil (y : Int) (mo : Int) (d : Int) * 86400 +
    ((h * 3600 + mi * 60 + s : Nat) : Int)

/-- Numeric value of a decimal digit character. -/
def dVal (c : Char) : Nat := c.toNat - 48

/-- Value of a two-digit string. -/
def d2v (a b : Char) : Nat := 10 * dVal a + dVal b

/-- Value of a four-digit string. -/
def d4v (a b c d : Char) : Nat := 1000 * dVal a + 100 * dVal b + 10 * dVal c + dVal d

/-- Tail of the to_est regex after the seconds field: (\.(\d+))?Z anchored
by $ (which in Python also matches just before one trailing newline).
Returns the fraction digit list, [] when no fraction is present. -/
def fracThenZ (cs : List Char) : Option (List Char) :=
  match cs with
  | ['Z'] => some []
  | ['Z', '\n'] => some []
  | '.' :: rest =>
      let ds := rest.takeWhile Char.isDigit
      if ds = [] then none
      else
        match rest.drop ds.length with
        | ['Z'] => some ds
        | ['Z', '\n'] => some ds
        | _ => none
  | _ => none

/-- Match of the to_est regex
r'^(\d{4}-\d{2}-\d{2}T\d{2}:\d{2}:\d{2})(?:\.(\d+))?Z$'
(\d modelled as the ASCII digits JSON timestamps use), returning the
numeric date and time fields and the raw fraction digits. -/
def matchZ (cs : List Char) : Option ((Nat × Nat × Nat) × (Nat × Nat × Nat) × List Char) :=
  match cs with
  | a :: b :: c :: d :: '-' :: e :: f :: '-' :: g :: h :: 'T' :: i :: j :: ':' :: k :: l :: ':' :: m :: n :: rest =>
      if a.isDigit && b.isDigit && c.isDigit && d.isDigit && e.isDigit && f.isDigit &&
         g.isDigit && h.isDigit && i.isDigit && j.isDigit && k.isDigit && l.isDigit &&
         m.isDigit && n.isDigit then
        match fracThenZ rest with
        | some ds => some ((d4v a b c d, d2v e f, d2v g h), (d2v i j, d2v k l, d2v m n), ds)
        | none => none
      else none
  | _ => none

/-- Naive civil datetime fields as carried by a Python datetime
(the sub-second part, irrelevant to the output format, is dropped). -/
structure NaiveDt where
  y : Nat
  mo : Nat
  d : Nat
  h : Nat
  mi : Nat
  s : Nat

/-- UTC instant of a NaiveDt read in UTC. -/
def epochDt (dt : NaiveDt) : Int :=
  epochSecs dt.y dt.mo dt.d dt.h dt.mi dt.s

/-- Two decimal digits at the head of the input. -/
def parse2 (cs : List Char) : Option (Nat × List Char) :=
  match cs with
  | a :: b :: rest => if a.isDigit && b.isDigit then some (d2v a b, rest) else none
  | _ => none

/-- Four decimal digits at the head of the input. -/
def parse4 (cs : List Char) : Option (Nat × List Char) :=
  match cs with
  | a :: b :: c :: d :: rest =>
      if a.isDigit && b.isDigit && c.isDigit && d.isDigit then some (d4v a b c d, rest)
      else none
  | _ => none

/-- Time-of-day part HH:MM[:SS[.digits]] of an ISO string; missing seconds
parse as 0; fraction digits are validated and dropped (they do not affect
the pipeline's second-resolution output). -/
def parseTimePart (cs : List Char) : Option ((Nat × Nat × Nat) × List Char) :=
  match parse2 cs with
  | none => none
  | some (h, rest1) =>
      match rest1 with
      | ':' :: rest2 =>
          match parse2 rest2 with
          | none => none
          | some (mi, rest3) =>
              match rest3 with
              | ':' :: rest4 =>
                  match parse2 rest4 with
                  | none => none
                  | some (s, rest5) =>
                      match rest5 with
                      | '.' :: rest6 =>
                          let ds := rest6.takeWhile Char.isDigit
                          if ds = [] then none
                          else some ((h, mi, s), rest6.drop ds.length)
                      | _ => some ((h, mi, s), rest5)
              | _ => some ((h, mi, 0), rest3)
      | _ => none

/-- UTC-offset part ±HH:MM of an ISO string, in seconds. -/
def parseOffsetPart (cs : List Char) : Option (Int × List Char) :=
  match cs with
  | '+' :: rest =>
      match parseTimePart rest with
      | some ((oh, om, os), rest2) =>
          if oh ≤ 23 && om ≤ 59 && os ≤ 59 then
            some (((oh * 3600 + om * 60 + os : Nat) : Int), rest2)
          else none
      | none => none
  | '-' :: rest =>
      match parseTimePart rest with
      | some ((oh, om, os), rest2) =>
          if oh ≤ 23 && om ≤ 59 && os ≤ 59 then
            some ((-((oh * 3600 + om * 60 + os : Nat) : Int)), rest2)
          else none
      | none => none
  | _ => none

/-- Model of datetime.fromisoformat on the extended ISO-8601 forms the
pipeline can meet: YYYY-MM-DD, optionally followed by a 'T' or ' '
separator and HH:MM[:SS[.frac]], optionally followed by a ±HH:MM[:SS]
offset. Returns the datetime and its offset (none = naive). Out-of-range
fields fail as the datetime constructor does. -/
def pyFromIso (cs : List Char) : Option (NaiveDt × Option Int) :=
  match parse4 cs with
  | none => none
  | some (y, r1) =>
      match r1 with
      | '-' :: r2 =>
          match parse2 r2 with
          | none => none
          | some (mo, r3) =>
              match r3 with
              | '-' :: r4 =>
                  match parse2 r4 with
                  | none => none
                  | some (d, r5) =>
                      match r5 with
                      | [] =>
                          if validDt y mo d 0 0 0 then some (⟨y, mo, d, 0, 0, 0⟩, none)
                          else none
                      | sep :: r6 =>
                          if sep = 'T' || sep = ' ' then
                            match parseTimePart r6 with
                            | none => none
                            | some ((h, mi, s), r7) =>
                                if validDt y mo d h mi s then
                                  match r7 with
                                  | [] => some (⟨y, mo, d, h, mi, s⟩, none)
                                  | _ =>
                                      match parseOffsetPart r7 with
                                      | some (off, []) => some (⟨y, mo, d, h, mi, s⟩, some off)
                                      | _ => none
                                else none
                          else none
              | _ => none
      | _ => none

/-- Model of ts.replace('Z', '+00:00'): every occurrence of the single
character Z is replaced by +00:00. -/
def replaceZ : List Char → List Char
  | [] => []
  | c :: rest =>
      if c = 'Z' then '+' :: '0' :: '0' :: ':' :: '0' :: '0' :: replaceZ rest
      else c :: replaceZ rest

/-- Embedding of to_est (src/effingham_supabase.py lines 16-34). The
argument is the received_at value from the decoded message (any JSON
value): a falsy value returns None, and a truthy non-string raises
TypeError inside re.match, which the blanket except turns into None.
sysConv abstracts astimezone's environment-dependent handling of a naive
datetime (Python interprets a naive datetime in the system time zone);
the spec's accepted encodings always carry Z or an explicit offset, so no
claim depends on it. Years are mapped with the post-2007 America/New_York
rule under which every claim instant falls. -/
def to_est (sysConv : NaiveDt → Option String) (v : JVal) : Option String :=
  if truthy v = false then none
  else
    match v with
    | .str ts =>
        match matchZ ts.data with
        | some ((y, mo, d), (h, mi, s), _) =>
            if validDt y mo d h mi s then some (toNY (epochSecs y mo d h mi s)) else none
        | none =>
            match pyFromIso (replaceZ ts.data) with
            | some (dt, some off) => some (toNY (epochDt dt - off))
            | some (dt, none) => sysConv dt
            | none => none
    | _ => none

/-- Persisted Devices row: device_eui is the unique key, brand the
denormalized brand string, sensor_name assigned out-of-band (never by this
pipeline), so a row created by the pipeline starts with sensor_name null. -/
structure Device where
  device_eui : JVal
  brand : JVal
  sensor_name : Option String
deriving DecidableEq

/-- Database state visible to the pipeline: the Brands table (keyed by
brand_name) and the Devices table (keyed by device_eui). -/
structure DB where
  brands : List JVal
  devices : List Device
deriving DecidableEq

/-- Row inserted into SoilSensorReadings (lines 84-92 of the source). -/
structure SoilRow where
  sensor_name : String
  ambient_temperature : JVal
  light_intensity : JVal
  relative_humidity : JVal
  soil_temperature : JVal
  soil_moisture : JVal
  received_at : Option String
deriving DecidableEq

/-- Row inserted into ClimateReadings (lines 99-106 of the source). -/
structure ClimateRow where
  sensor_name : String
  temperature : JVal
  humidity : JVal
  pressure : JVal
  co2 : JVal
  received_at : Option String
deriving DecidableEq

/-- One database write issued by on_message, in issue order. -/
inductive Effect where
  | brandUpsert (brand_name : JVal)
  | deviceUpsert (device_eui brand : JVal)
  | soilInsert (row : SoilRow)
  | climateInsert (row : ClimateRow)
deriving DecidableEq

/-- One print diagnostic emitted by on_message, in emission order. -/
inductive LogEntry where
  | processing (device_eui brand_name : JVal)
  | skipNoSensorName (device_eui : JVal)
  | tektelicFound
  | soilInserted
  | elsysFound
  | climateInserted
  | noHandler (brand_name : JVal)
  | errorOccurred
deriving DecidableEq

/-- The four database call sites of on_message; a store behaviour says
which of them raise (connectivity failure, constraint violation). -/
inductive StoreCall where
  | brandsUpsert
  | devicesUpsert
  | soilIns
  | climateIns
deriving DecidableEq

/-- Store behaviour in which every database call succeeds. -/
def noFail : StoreCall → Bool := fun _ => false

/-- Supabase upsert into Brands with on_conflict brand_name: inserts the
row when the key is new, otherwise leaves the table unchanged. -/
def upsertBrand (db : DB) (b : JVal) : DB :=
  if b ∈ db.brands then db else { db with brands := db.brands ++ [b] }

/-- Supabase upsert into Devices with on_conflict device_eui: on conflict
the brand column is overwritten and sensor_name is untouched; a fresh row
gets sensor_name null. Returns the new state and the returned row. -/
def upsertDevice (db : DB) (eui brand : JVal) : DB × Device :=
  match db.devices.find? (fun dv => dv.device_eui == eui) with
  | some dv =>
      let dv2 : Device := { dv with brand := brand }
      ({ db with devices := db.devices.map (fun x => if x.device_eui == eui then dv2 else x) },
       dv2)
  | none =>
      let dv2 : Device := ⟨eui, brand, none⟩
      ({ db with devices := db.devices ++ [dv2] }, dv2)

/-- Decoded uplink envelope fields as bound in on_message lines 49-60. -/
structure Envelope where
  device_eui : JVal
  uplink_message : JVal
  brand_name : JVal
  decoded_payload : JVal
  received_at_raw : JVal
  f_port : JVal
deriving DecidableEq

/-- Loop over rx_metadata (lines 57-60): received_at_raw is reassigned to
md.get('received_at') or md.get('time') on every iteration and the loop
breaks at the first truthy value, so a trailing falsy assignment leaks out
when no entry hits. A non-dict entry raises AttributeError. -/
def scanMeta : List JVal → JVal → Except Unit JVal
  | [], acc => .ok acc
  | md :: rest, _ => do
      let ra ← pyGet md "received_at"
      let t ← pyGet md "time"
      let v := pyOr ra t
      if truthy v then .ok v else scanMeta rest v

/-- Extraction of received_at_raw (lines 53-60): the uplink body's
received_at, or the top-level received_at, Python-or semantics; when the
result is falsy, the rx_metadata scan. Iterating a truthy non-list (or a
truthy list of non-dicts) raises, as the Python attribute accesses do. -/
def codeReceivedAt (payload uplink : JVal) : Except Unit JVal := do
  let ra0 ← pyGet uplink "received_at"
  let ra1 ← pyGet payload "received_at"
  let r0 := pyOr ra0 ra1
  if truthy r0 then pure r0
  else do
    let rx ← pyGet uplink "rx_metadata"
    match pyOr rx (.arr []) with
    | .arr mds => scanMeta mds r0
    | _ => .error ()

/-- Envelope extraction of on_message lines 49-60, in source order; any
attribute access on a non-dict intermediate raises, landing in the blanket
except. f_port (read at line 82 in the source) is hoisted here: by that
point uplink_message is known to be a dict (the version_ids access would
have raised otherwise), so the hoisted read cannot fail and is
observationally equivalent. -/
def extractEnvelope (payload : JVal) : Except Unit Envelope := do
  let edi ← pyGetD payload "end_device_ids" (.obj [])
  let device_eui ← pyGet edi "device_id"
  let uplink ← pyGetD payload "uplink_message" (.obj [])
  let vids ← pyGetD uplink "version_ids" (.obj [])
  let brand_name ← pyGet vids "brand_id"
  let decoded_payload ← pyGet uplink "decoded_payload"
  let received ← codeReceivedAt payload uplink
  let f_port ← pyGet uplink "f_port"
  pure ⟨device_eui, uplink, brand_name, decoded_payload, received, f_port⟩

/-- Result of one on_message call: the database state after the call, the
writes issued and the diagnostics printed, in order. -/
structure Outcome where
  db : DB
  effects : List Effect
  logs : List LogEntry
deriving DecidableEq

/-- Embedding of the on_message callback (lines 44-114). A message is the
json.loads result, none when the body is not valid JSON (the decode
failure lands in the blanket except, line 113). sf says which store calls
raise; a raising call performs no write. sysConv is passed to to_est. -/
def on_message (sysConv : NaiveDt → Option String) (sf : StoreCall → Bool)
    (db : DB) (msg : Option JVal) : Outcome :=
  match msg with
  | none => ⟨db, [], [.errorOccurred]⟩
  | some payload =>
    match extractEnvelope payload with
    | .error _ => ⟨db, [], [.errorOccurred]⟩
    | .ok env =>
      let received_at_est := to_est sysConv env.received_at_raw
      if !(truthy env.device_eui && truthy env.brand_name && truthy env.decoded_payload) then
        ⟨db, [], []⟩
      else
        let logs1 : List LogEntry := [.processing env.device_eui env.brand_name]
        if sf .brandsUpsert then ⟨db, [], logs1 ++ [.errorOccurred]⟩
        else
          let db1 := upsertBrand db env.brand_name
          let effs1 : List Effect := [.brandUpsert env.brand_name]
          if sf .devicesUpsert then ⟨db1, effs1, logs1 ++ [.errorOccurred]⟩
          else
            let dres := upsertDevice db1 env.device_eui env.brand_name
            let effs2 := effs1 ++ [.deviceUpsert env.device_eui env.brand_name]
            match dres.2.sensor_name with
            | none => ⟨dres.1, effs2, logs1 ++ [.skipNoSensorName env.device_eui]⟩
            | some device_name =>
              if pyEqStr env.brand_name "tektelic" && pyEqNum env.f_port 10 then
                match env.decoded_payload with
                | .obj kvs =>
                    let row : SoilRow :=
                      { sensor_name := device_name,
                        ambient_temperature := (jlookup kvs "ambient_temperature").getD .null,
                        light_intensity := (jlookup kvs "light_intensity").getD .null,
                        relative_humidity := (jlookup kvs "relative_humidity").getD .null,
                        soil_temperature := (jlookup kvs "Input3_voltage_to_temp").getD .null,
                        soil_moisture := (jlookup kvs "watermark1_tension").getD .null,
                        received_at := received_at_est }
                    if sf .soilIns then ⟨dres.1, effs2, logs1 ++ [.tektelicFound, .errorOccurred]⟩
                    else
                      ⟨dres.1, effs2 ++ [.soilInsert row],
                       logs1 ++ [.tektelicFound, .soilInserted]⟩
                | _ => ⟨dres.1, effs2, logs1 ++ [.tektelicFound, .errorOccurred]⟩
              else if pyEqStr env.brand_name "elsys" then
                match env.decoded_payload with
                | .obj kvs =>
                    let row : ClimateRow :=
                      { sensor_name := device_name,
                        temperature := (jlookup kvs "temperature").getD .null,
                        humidity := (jlookup kvs "humidity").getD .null,
                        pressure := (jlookup kvs "pressure").getD .null,
                        co2 := (jlookup kvs "co2").getD .null,
                        received_at := received_at_est }
                    if sf .climateIns then ⟨dres.1, effs2, logs1 ++ [.elsysFound, .errorOccurred]⟩
                    else
                      ⟨dres.1, effs2 ++ [.climateInsert row],
                       logs1 ++ [.elsysFound, .climateInserted]⟩
                | _ => ⟨dres.1, effs2, logs1 ++ [.elsysFound, .errorOccurred]⟩
              else ⟨dres.1, effs2, logs1 ++ [.noHandler env.brand_name]⟩

/-- Ingestion loop: one message at a time, in delivery order, each with
its own store weather; the callback's result state feeds the next call. -/
def runLoop (sysConv : NaiveDt → Option String) :
    DB → List (Option JVal × (StoreCall → Bool)) → DB × List Outcome
  | db, [] => (db, [])
  | db, (m, sf) :: rest =>
      let o := on_message sysConv sf db m
      let r := runLoop sysConv o.db rest
      (r.1, o :: r.2)

/-- Whether an effect is a reading insert into one of the two fact tables. -/
def isReadingInsert : Effect → Bool
  | .soilInsert _ => true
  | .climateInsert _ => true
  | _ => false

/-- The reading inserts among a list of effects. -/
def readingInserts (effs : List Effect) : List Effect :=
  effs.filter isReadingInsert

/-- The empty database. -/
def dbEmpty : DB := ⟨[], []⟩

/-- A fixed naive-datetime conversion used to instantiate sysConv in
concrete computations; no claim instant exercises it. -/
def noSys : NaiveDt → Option String := fun _ => none

/-- Value of key k in a JSON object, null for an absent key or a non-dict. -/
def jgetV (v : JVal) (k : String) : JVal :=
  match v with
  | .obj kvs => (jlookup kvs k).getD .null
  | _ => .null

/-- Whether a JSON object carries key k. -/
def hasKey (v : JVal) (k : String) : Bool :=
  match v with
  | .obj kvs => (jlookup kvs k).isSome
  | _ => false

/-- Modelled from the claim C8 text (presence-based reading): scan the
rx_metadata entries in order and take the first entry exposing a
received_at or time key, received_at preferred within an entry. -/
def specScanPresence : List JVal → Option JVal
  | [] => none
  | md :: rest =>
      if hasKey md "received_at" then some (jgetV md "received_at")
      else if hasKey md "time" then some (jgetV md "time")
      else specScanPresence rest

/-- Modelled from the claim C8 text (presence-based reading): the uplink
body's received_at if the key is present; else the outer envelope's; else
the first rx_metadata hit; else absent. -/
def specReceivedAtPresence (payload uplink : JVal) : Option JVal :=
  if hasKey uplink "received_at" then some (jgetV uplink "received_at")
  else if hasKey payload "received_at" then some (jgetV payload "received_at")
  else
    match jgetV uplink "rx_metadata" with
    | .arr mds => specScanPresence mds
    | _ => none

/-- Truthiness-based precedence (the amended C8 reading): scan the
rx_metadata entries in order and take the first truthy received_at or
time value, received_at preferred within an entry. -/
def specScanTruthy : List JVal → Option JVal
  | [] => none
  | md :: rest =>
      if truthy (jgetV md "received_at") then some (jgetV md "received_at")
      else if truthy (jgetV md "time") then some (jgetV md "time")
      else specScanTruthy rest

/-- Truthiness-based precedence (the amended C8 reading): the uplink
body's received_at if truthy; else the outer envelope's if truthy; else
the first truthy rx_metadata hit; else nothing truthy. -/
def specReceivedAtTruthy (payload uplink : JVal) : Option JVal :=
  if truthy (jgetV uplink "received_at") then some (jgetV uplink "received_at")
  else if truthy (jgetV payload "received_at") then some (jgetV payload "received_at")
  else
    match jgetV uplink "rx_metadata" with
    | .arr mds => specScanTruthy mds
    | _ => none

/-- The identity-resolution step of one message: Brand upsert then Device
upsert, as issued by on_message lines 69-71. -/
def resolveStep (eui b : JVal) (db : DB) : DB :=
  (upsertDevice (upsertBrand db b) eui b).1

/-- Number of Brand rows keyed by b. -/
def brandCount (db : DB) (b : JVal) : Nat :=
  db.brands.count b

/-- Number of Device rows keyed by eui. -/
def deviceCount (db : DB) (eui : JVal) : Nat :=
  (db.devices.filter (fun dv => dv.device_eui == eui)).length

/-- Uniqueness invariant of the two identity tables: at most one Brand row
per brand_name and at most one Device row per device_eui (what the unique
keys of the store enforce). -/
def wfDB (db : DB) : Prop :=
  (∀ k, brandCount db k ≤ 1) ∧ (∀ k, deviceCount db k ≤ 1)

/-- n-fold repetition of identity resolution for the same pair. -/
def resolveN (eui b : JVal) : Nat → DB → DB
  | 0, db => db
  | n + 1, db => resolveN eui b n (resolveStep eui b db)

/-- C4: an inbound message whose envelope lacks device_eui, brand_id or
decoded_payload (or whose decoded_payload is empty, hence falsy) is
discarded by the all() gate at line 63 with zero database writes of any
kind and an unchanged database, for every store behaviour. -/
theorem missing_fields_no_db_writes
    (sys : NaiveDt → Option String) (sf : StoreCall → Bool) (db : DB)
    (payload : JVal) (env : Envelope)
    (hext : extractEnvelope payload = .ok env)
    (h : (truthy env.device_eui && truthy env.brand_name && truthy env.decoded_payload) = false) :
    on_message sys sf db (some payload) = ⟨db, [], []⟩ := by
  simp [on_message, hext, h]

/-- Witness for C4 at the empty envelope: no effects, database unchanged. -/
theorem missing_fields_no_db_writes_witness :
    on_message noSys noFail dbEmpty (some (.obj [])) = ⟨dbEmpty, [], []⟩ :=
  missing_fields_no_db_writes noSys noFail dbEmpty (.obj [])
    ⟨.null, .obj [], .null, .null, .null, .null⟩ rfl rfl

/-- C1: a structurally valid envelope with brand_id tektelic and f_port 10
whose device resolves to a non-null sensor_name yields exactly one
SoilSensorReadings insert, carrying exactly the five mapped fields
(ambient_temperature, light_intensity, relative_humidity,
soil_temperature from Input3_voltage_to_temp, soil_moisture from
watermark1_tension), each a lookup in decoded_payload defaulting to null
when the source field is absent, never to zero. -/
theorem tektelic_soil_mapping
    (sys : NaiveDt → Option String) (db : DB) (payload : JVal) (env : Envelope)
    (kvs : List (String × JVal)) (name : String)
    (hext : extractEnvelope payload = .ok env)
    (he : truthy env.device_eui = true)
    (hb : env.brand_name = .str "tektelic")
    (hp : env.decoded_payload = .obj kvs)
    (hne : kvs ≠ [])
    (hf : env.f_port = .num 10)
    (hn : (upsertDevice (upsertBrand db env.brand_name) env.device_eui env.brand_name).2.sensor_name
            = some name) :
    on_message sys noFail db (some payload) =
      { db := resolveStep env.device_eui (.str "tektelic") db,
        effects := [.brandUpsert (.str "tektelic"),
                    .deviceUpsert env.device_eui (.str "tektelic"),
                    .soilInsert
                      { sensor_name := name,
                        ambient_temperature := (jlookup kvs "ambient_temperature").getD .null,
                        light_intensity := (jlookup kvs "light_intensity").getD .null,
                        relative_humidity := (jlookup kvs "relative_humidity").getD .null,
                        soil_temperature := (jlookup kvs "Input3_voltage_to_temp").getD .null,
                        soil_moisture := (jlookup kvs "watermark1_tension").getD .null,
                        received_at := to_est sys env.received_at_raw }],
        logs := [.processing env.device_eui (.str "tektelic"), .tektelicFound, .soilInserted] } := by
  rw [hb] at hn
  have hbT : truthy env.brand_name = true := by rw [hb]; rfl
  have hdT : truthy env.decoded_payload = true := by rw [hp]; simp [truthy, hne]
  simp [on_message, hext, he, hbT, hdT, hb, hp, hf, pyEqStr, pyEqNum, noFail, hn, resolveStep]
  exact ⟨rfl, by simp [truthy, hne]⟩

/-- Fixture: decoded payload of the C1 witness, carrying two of the five
source fields. -/
def kvsC1 : List (String × JVal) :=
  [("ambient_temperature", .num 20), ("watermark1_tension", .num (mkRat 7 2))]

/-- Fixture: C1 witness uplink message. -/
def uplinkC1 : JVal := .obj [
  ("version_ids", .obj [("brand_id", .str "tektelic")]),
  ("decoded_payload", .obj kvsC1),
  ("f_port", .num 10),
  ("received_at", .str "2024-07-04T16:00:00.123456Z")]

/-- Fixture: C1 witness envelope. -/
def envC1 : JVal := .obj [
  ("end_device_ids", .obj [("device_id", .str "t-1")]),
  ("uplink_message", uplinkC1)]

/-- Fixture: C1 witness database, holding the device with an assigned
sensor_name and an older brand value. -/
def dbC1 : DB := ⟨[], [⟨.str "t-1", .str "old", some "Soil-1"⟩]⟩

/-- Witness for C1: the concrete tektelic envelope inserts exactly one
soil row, with the three absent source fields stored as null. -/
theorem tektelic_soil_mapping_witness :
    on_message noSys noFail dbC1 (some envC1) =
      { db := ⟨[.str "tektelic"], [⟨.str "t-1", .str "tektelic", some "Soil-1"⟩]⟩,
        effects := [.brandUpsert (.str "tektelic"),
                    .deviceUpsert (.str "t-1") (.str "tektelic"),
                    .soilInsert ⟨"Soil-1", .num 20, .null, .null, .null, .num (mkRat 7 2),
                                 some "2024-07-04 12:00:00"⟩],
        logs := [.processing (.str "t-1") (.str "tektelic"), .tektelicFound, .soilInserted] } :=
  tektelic_soil_mapping noSys dbC1 envC1
    ⟨.str "t-1", uplinkC1, .str "tektelic", .obj kvsC1,
     .str "2024-07-04T16:00:00.123456Z", .num 10⟩
    kvsC1 "Soil-1" rfl rfl rfl rfl (by decide) rfl rfl

/-- C2: a structurally valid envelope with brand_id elsys (any f_port,
present or absent) whose device resolves to a non-null sensor_name yields
exactly one ClimateReadings insert with exactly the four mapped fields
temperature, humidity, pressure, co2, absent source fields stored as
null. -/
theorem elsys_climate_mapping
    (sys : NaiveDt → Option String) (db : DB) (payload : JVal) (env : Envelope)
    (kvs : List (String × JVal)) (name : String)
    (hext : extractEnvelope payload = .ok env)
    (he : truthy env.device_eui = true)
    (hb : env.brand_name = .str "elsys")
    (hp : env.decoded_payload = .obj kvs)
    (hne : kvs ≠ [])
    (hn : (upsertDevice (upsertBrand db env.brand_name) env.device_eui env.brand_name).2.sensor_name
            = some name) :
    on_message sys noFail db (some payload) =
      { db := resolveStep env.device_eui (.str "elsys") db,
        effects := [.brandUpsert (.str "elsys"),
                    .deviceUpsert env.device_eui (.str "elsys"),
                    .climateInsert
                      { sensor_name := name,
                        temperature := (jlookup kvs "temperature").getD .null,
                        humidity := (jlookup kvs "humidity").getD .null,
                        pressure := (jlookup kvs "pressure").getD .null,
                        co2 := (jlookup kvs "co2").getD .null,
                        received_at := to_est sys env.received_at_raw }],
        logs := [.processing env.device_eui (.str "elsys"), .elsysFound, .climateInserted] } := by
  rw [hb] at hn
  have hbT : truthy env.brand_name = true := by rw [hb]; rfl
  have hdT : truthy env.decoded_payload = true := by rw [hp]; simp [truthy, hne]
  simp [on_message, hext, he, hbT, hdT, hb, hp, pyEqStr, pyEqNum, noFail, hn, resolveStep]
  exact ⟨rfl, by simp [truthy, hne]⟩

/-- Fixture: decoded payload of the section-8 end-to-end scenario. -/
def kvsC2 : List (String × JVal) :=
  [("temperature", .num (mkRat 43 2)), ("humidity", .num 40)]

/-- Fixture: uplink message of the section-8 end-to-end scenario. -/
def uplinkC2 : JVal := .obj [
  ("version_ids", .obj [("brand_id", .str "elsys")]),
  ("decoded_payload", .obj kvsC2),
  ("received_at", .str "2024-01-01T12:00:00Z")]

/-- Fixture: envelope of the section-8 end-to-end scenario. -/
def envC2 : JVal := .obj [
  ("end_device_ids", .obj [("device_id", .str "eui-1")]),
  ("uplink_message", uplinkC2)]

/-- Fixture: database with the pre-existing Device row for eui-1 carrying
sensor_name Sensor-A. -/
def dbC2 : DB := ⟨[.str "elsys"], [⟨.str "eui-1", .str "elsys", some "Sensor-A"⟩]⟩

/-- Witness for C2, the section-8 end-to-end scenario: exactly one
ClimateReading row with sensor_name Sensor-A, temperature 21.5 (43/2),
humidity 40, pressure and co2 null, received_at 2024-01-01 07:00:00. -/
theorem elsys_climate_mapping_witness :
    on_message noSys noFail dbC2 (some envC2) =
      { db := dbC2,
        effects := [.brandUpsert (.str "elsys"),
                    .deviceUpsert (.str "eui-1") (.str "elsys"),
                    .climateInsert ⟨"Sensor-A", .num (mkRat 43 2), .num 40, .null, .null,
                                    some "2024-01-01 07:00:00"⟩],
        logs := [.processing (.str "eui-1") (.str "elsys"), .elsysFound, .climateInserted] } :=
  elsys_climate_mapping noSys dbC2 envC2
    ⟨.str "eui-1", uplinkC2, .str "elsys", .obj kvsC2,
     .str "2024-01-01T12:00:00Z", .null⟩
    kvsC2 "Sensor-A" rfl rfl rfl rfl (by decide) rfl

/-- C5: when the resolved device row carries a null sensor_name, no
reading row is inserted into either fact table (line 75 guard), for every
store behaviour, even for a fully valid and routable envelope. -/
theorem null_sensor_name_no_reading
    (sys : NaiveDt → Option String) (sf : StoreCall → Bool) (db : DB)
    (payload : JVal) (env : Envelope)
    (hext : extractEnvelope payload = .ok env)
    (hv : (truthy env.device_eui && truthy env.brand_name && truthy env.decoded_payload) = true)
    (hn : (upsertDevice (upsertBrand db env.brand_name) env.device_eui env.brand_name).2.sensor_name
            = none) :
    readingInserts (on_message sys sf db (some payload)).effects = [] := by
  by_cases h1 : sf .brandsUpsert
  · simp [on_message, hext, hv, h1, readingInserts, isReadingInsert]
  · by_cases h2 : sf .devicesUpsert
    · simp [on_message, hext, hv, h1, h2, readingInserts, isReadingInsert]
    · simp [on_message, hext, hv, h1, h2, hn, readingInserts, isReadingInsert]

/-- Fixture: C5 witness uplink for a routable elsys envelope. -/
def uplinkC5 : JVal := .obj [
  ("version_ids", .obj [("brand_id", .str "elsys")]),
  ("decoded_payload", .obj [("temperature", .num 1)])]

/-- Fixture: C5 witness envelope referencing a device with no row yet, so
its upsert-created row has sensor_name null. -/
def envC5 : JVal := .obj [
  ("end_device_ids", .obj [("device_id", .str "e5")]),
  ("uplink_message", uplinkC5)]

/-- Witness for C5: the valid elsys envelope for an unnamed device yields
no reading insert. -/
theorem null_sensor_name_no_reading_witness :
    readingInserts (on_message noSys noFail dbEmpty (some envC5)).effects = [] :=
  null_sensor_name_no_reading noSys noFail dbEmpty envC5
    ⟨.str "e5", uplinkC5, .str "elsys", .obj [("temperature", .num 1)], .null, .null⟩
    rfl rfl rfl

/-- C7: a structurally valid envelope matching no routing rule (brand_id
neither tektelic-with-f_port-10 nor elsys) reaches the catch-all else of
the router: no reading insert into either fact table, and nothing is
persisted by the routing stage beyond the observability log entry — the
only effects are the two identity upserts that line 69-71 issue before
routing (claim C10 pins those as pre-routing effects). -/
theorem unrouted_brand_no_reading
    (sys : NaiveDt → Option String) (db : DB) (payload : JVal) (env : Envelope) (name : String)
    (hext : extractEnvelope payload = .ok env)
    (hv : (truthy env.device_eui && truthy env.brand_name && truthy env.decoded_payload) = true)
    (hnt : (pyEqStr env.brand_name "tektelic" && pyEqNum env.f_port 10) = false)
    (hne : pyEqStr env.brand_name "elsys" = false)
    (hn : (upsertDevice (upsertBrand db env.brand_name) env.device_eui env.brand_name).2.sensor_name
            = some name) :
    on_message sys noFail db (some payload) =
      { db := resolveStep env.device_eui env.brand_name db,
        effects := [.brandUpsert env.brand_name, .deviceUpsert env.device_eui env.brand_name],
        logs := [.processing env.device_eui env.brand_name, .noHandler env.brand_name] } := by
  simp [on_message, hext, hv, noFail, hn, hnt, hne, resolveStep]

/-- Fixture: C7 witness uplink with unrouted brand acme. -/
def uplinkC7 : JVal := .obj [
  ("version_ids", .obj [("brand_id", .str "acme")]),
  ("decoded_payload", .obj [("x", .num 1)])]

/-- Fixture: C7 witness envelope. -/
def envC7 : JVal := .obj [
  ("end_device_ids", .obj [("device_id", .str "e7")]),
  ("uplink_message", uplinkC7)]

/-- Fixture: C7 witness database with a named device. -/
def dbC7 : DB := ⟨[], [⟨.str "e7", .str "acme", some "Dev-7"⟩]⟩

/-- Witness for C7: the acme envelope produces the two identity upserts, a
no-handler log, and no reading insert. -/
theorem unrouted_brand_no_reading_witness :
    on_message noSys noFail dbC7 (some envC7) =
      { db := ⟨[.str "acme"], [⟨.str "e7", .str "acme", some "Dev-7"⟩]⟩,
        effects := [.brandUpsert (.str "acme"), .deviceUpsert (.str "e7") (.str "acme")],
        logs := [.processing (.str "e7") (.str "acme"), .noHandler (.str "acme")] } :=
  unrouted_brand_no_reading noSys dbC7 envC7
    ⟨.str "e7", uplinkC7, .str "acme", .obj [("x", .num 1)], .null, .null⟩
    "Dev-7" rfl rfl rfl rfl rfl

/-- C10: for every message carrying the three required fields, the Brand
upsert and the Device upsert (overwriting the device's brand) are issued,
in that order, before the routing decision: the effect list always starts
with them, and when the resolved sensor_name is null or no routing rule
matches, they are the only effects — the reading insert is the only
skipped persistence. -/
theorem upserts_precede_routing
    (sys : NaiveDt → Option String) (db : DB) (payload : JVal) (env : Envelope)
    (hext : extractEnvelope payload = .ok env)
    (hv : (truthy env.device_eui && truthy env.brand_name && truthy env.decoded_payload) = true) :
    (on_message sys noFail db (some payload)).effects.take 2 =
      [.brandUpsert env.brand_name, .deviceUpsert env.device_eui env.brand_name] ∧
    ((upsertDevice (upsertBrand db env.brand_name) env.device_eui env.brand_name).2.sensor_name
        = none →
      on_message sys noFail db (some payload) =
        { db := resolveStep env.device_eui env.brand_name db,
          effects := [.brandUpsert env.brand_name, .deviceUpsert env.device_eui env.brand_name],
          logs := [.processing env.device_eui env.brand_name,
                   .skipNoSensorName env.device_eui] }) ∧
    (∀ name,
      (upsertDevice (upsertBrand db env.brand_name) env.device_eui env.brand_name).2.sensor_name
          = some name →
      (pyEqStr env.brand_name "tektelic" && pyEqNum env.f_port 10) = false →
      pyEqStr env.brand_name "elsys" = false →
      on_message sys noFail db (some payload) =
        { db := resolveStep env.device_eui env.brand_name db,
          effects := [.brandUpsert env.brand_name, .deviceUpsert env.device_eui env.brand_name],
          logs := [.processing env.device_eui env.brand_name,
                   .noHandler env.brand_name] }) := by
  have hv2 : truthy env.device_eui = true ∧ truthy env.brand_name = true ∧
      truthy env.decoded_payload = true := by
    simpa [Bool.and_eq_true, and_assoc] using hv
  obtain ⟨he1, he2, he3⟩ := hv2
  refine ⟨?_, ?_, ?_⟩
  · rcases hsn : (upsertDevice (upsertBrand db env.brand_name) env.device_eui env.brand_name).2.sensor_name with _ | nm
    · simp [on_message, hext, hv, noFail, hsn]
    · by_cases ht : (pyEqStr env.brand_name "tektelic" && pyEqNum env.f_port 10) = true
      · cases hd : env.decoded_payload <;> rw [hd] at he3 <;>
          simp [on_message, hext, he1, he2, he3, noFail, hsn, ht, hd, List.take]
      · by_cases hel : pyEqStr env.brand_name "elsys" = true
        · cases hd : env.decoded_payload <;> rw [hd] at he3 <;>
            simp [on_message, hext, he1, he2, he3, noFail, hsn, ht, hel, hd, List.take]
        · simp [on_message, hext, hv, noFail, hsn, ht, hel]
  · intro hsn
    simp [on_message, hext, hv, noFail, hsn, resolveStep]
  · intro nm hsn hnt hne
    simp [on_message, hext, hv, noFail, hsn, hnt, hne, resolveStep]

/-- Fixture: C10 witness uplink, tektelic on the unrouted port 2. -/
def uplinkC10 : JVal := .obj [
  ("version_ids", .obj [("brand_id", .str "tektelic")]),
  ("decoded_payload", .obj [("a", .num 1)]),
  ("f_port", .num 2)]

/-- Fixture: C10 witness envelope for a device with no row yet. -/
def envC10 : JVal := .obj [
  ("end_device_ids", .obj [("device_id", .str "e10")]),
  ("uplink_message", uplinkC10)]

/-- Witness for C10: identity rows are created even though the brand/port
pair routes nowhere and sensor_name is unset; the reading insert is the
only skipped effect. -/
theorem upserts_precede_routing_witness :
    (on_message noSys noFail dbEmpty (some envC10)).effects.take 2 =
      [.brandUpsert (.str "tektelic"), .deviceUpsert (.str "e10") (.str "tektelic")] ∧
    on_message noSys noFail dbEmpty (some envC10) =
      { db := ⟨[.str "tektelic"], [⟨.str "e10", .str "tektelic", none⟩]⟩,
        effects := [.brandUpsert (.str "tektelic"), .deviceUpsert (.str "e10") (.str "tektelic")],
        logs := [.processing (.str "e10") (.str "tektelic"),
                 .skipNoSensorName (.str "e10")] } :=
  have h := upserts_precede_routing noSys dbEmpty envC10
    ⟨.str "e10", uplinkC10, .str "tektelic", .obj [("a", .num 1)], .null, .num 2⟩ rfl rfl
  ⟨h.1, h.2.1 rfl⟩

/-- Brand upsert leaves the Devices table untouched. -/
lemma upsertBrand_devices (db : DB) (b : JVal) : (upsertBrand db b).devices = db.devices := by
  unfold upsertBrand
  split <;> rfl

/-- Device upsert leaves the Brands table untouched. -/
lemma upsertDevice_brands (db : DB) (eui b : JVal) :
    (upsertDevice db eui b).1.brands = db.brands := by
  unfold upsertDevice
  cases db.devices.find? (fun dv => dv.device_eui == eui) <;> rfl

/-- After a Brand upsert the upserted key has exactly one row. -/
lemma brandCount_upsertBrand (db : DB) (b : JVal) (h : brandCount db b ≤ 1) :
    brandCount (upsertBrand db b) b = 1 := by
  unfold upsertBrand brandCount at *
  by_cases hm : b ∈ db.brands
  · have h1 : 0 < db.brands.count b := List.count_pos_iff.mpr hm
    simp only [hm, if_true]
    omega
  · have h0 : db.brands.count b = 0 := List.count_eq_zero.mpr hm
    simp [hm, List.count_append, h0]

/-- Rewriting the conflicting row in place preserves every per-key row
count, since the replacement row carries the same key. -/
lemma deviceCount_map_update (l : List Device) (eui k : JVal) (dv2 : Device)
    (h2 : dv2.device_eui = eui) :
    ((l.map (fun x => if x.device_eui == eui then dv2 else x)).filter
        (fun dv => dv.device_eui == k)).length =
      (l.filter (fun dv => dv.device_eui == k)).length := by
  induction l with
  | nil => rfl
  | cons x xs ih =>
      by_cases hx : x.device_eui = eui
      · have hbeq : (x.device_eui == eui) = true := beq_iff_eq.mpr hx
        have hxk : (x.device_eui == k) = (eui == k) := by rw [hx]
        have hdk : (dv2.device_eui == k) = (eui == k) := by rw [h2]
        simp only [List.map_cons, List.filter_cons, hbeq, if_true, hxk, hdk]
        cases hek : (eui == k) <;> simp <;> simpa using ih
      · have hbeq : (x.device_eui == eui) = false := by simp [hx]
        simp only [List.map_cons, List.filter_cons, hbeq]
        cases hxk : (x.device_eui == k) <;> simp [hxk] <;> simpa using ih

/-- After a Device upsert the upserted key has exactly one row. -/
lemma deviceCount_upsertDevice (db : DB) (eui b : JVal) (h : deviceCount db eui ≤ 1) :
    deviceCount (upsertDevice db eui b).1 eui = 1 := by
  unfold upsertDevice deviceCount at *
  cases hf : db.devices.find? (fun dv => dv.device_eui == eui) with
  | some dv =>
      have hdv : (dv.device_eui == eui) = true := by simpa using List.find?_some hf
      have hdv2 : ({ dv with brand := b } : Device).device_eui = eui := beq_iff_eq.mp hdv
      simp only [hf]
      rw [deviceCount_map_update db.devices eui eui _ hdv2]
      have hmem : dv ∈ db.devices.filter (fun dv => dv.device_eui == eui) :=
        List.mem_filter.mpr ⟨List.mem_of_find?_eq_some hf, hdv⟩
      have h1 : 0 < (db.devices.filter (fun dv => dv.device_eui == eui)).length :=
        List.length_pos.mpr (List.ne_nil_of_mem hmem)
      omega
  | none =>
      have hall : ∀ x ∈ db.devices, ¬((x.device_eui == eui) = true) := by
        intro x hx
        exact List.find?_eq_none.mp hf x hx
      have h0 : db.devices.filter (fun dv => dv.device_eui == eui) = [] :=
        List.filter_eq_nil_iff.mpr hall
      simp [hf, List.filter_append, h0]

/-- Brand upsert preserves the uniqueness invariant. -/
lemma wf_upsertBrand (db : DB) (b : JVal) (h : wfDB db) : wfDB (upsertBrand db b) := by
  refine ⟨fun k => ?_, fun k => ?_⟩
  · unfold upsertBrand brandCount
    by_cases hm : b ∈ db.brands
    · simp only [hm, if_true]
      exact h.1 k
    · by_cases hbk : b = k
      · subst hbk
        have h0 : db.brands.count b = 0 := List.count_eq_zero.mpr hm
        simp [hm, List.count_append, h0]
      · have h1 : List.count k [b] = 0 := by
          simp [List.count_cons, hbk]
        have h2 := h.1 k
        unfold brandCount at h2
        simp [hm, List.count_append, h1, h2]
  · unfold deviceCount
    rw [upsertBrand_devices]
    exact h.2 k

/-- Device upsert preserves the uniqueness invariant. -/
lemma wf_upsertDevice (db : DB) (eui b : JVal) (h : wfDB db) :
    wfDB (upsertDevice db eui b).1 := by
  refine ⟨fun k => ?_, fun k => ?_⟩
  · unfold brandCount
    rw [upsertDevice_brands]
    exact h.1 k
  · unfold upsertDevice deviceCount
    cases hf : db.devices.find? (fun dv => dv.device_eui == eui) with
    | some dv =>
        have hdv : (dv.device_eui == eui) = true := by simpa using List.find?_some hf
        have hdv2 : ({ dv with brand := b } : Device).device_eui = eui := beq_iff_eq.mp hdv
        simp only [hf]
        rw [deviceCount_map_update db.devices eui k _ hdv2]
        exact h.2 k
    | none =>
        have hall : ∀ x ∈ db.devices, ¬((x.device_eui == eui) = true) := by
          intro x hx
          exact List.find?_eq_none.mp hf x hx
        simp only [hf, List.filter_append, List.length_append]
        by_cases hk : eui = k
        · subst hk
          have h0 : db.devices.filter (fun dv => dv.device_eui == eui) = [] :=
            List.filter_eq_nil_iff.mpr hall
          simp [h0]
        · have h1 : (([⟨eui, b, none⟩] : List Device).filter
              (fun dv => dv.device_eui == k)).length = 0 := by
            simp [List.filter_cons, hk]
          have h2 := h.2 k
          unfold deviceCount at h2
          omega

/-- Identity resolution preserves the uniqueness invariant. -/
lemma wf_resolveStep (eui b : JVal) (db : DB) (h : wfDB db) : wfDB (resolveStep eui b db) :=
  wf_upsertDevice _ _ _ (wf_upsertBrand _ _ h)

/-- One identity resolution leaves exactly one row for each upserted key. -/
lemma resolveStep_counts (eui b : JVal) (db : DB) (h : wfDB db) :
    brandCount (resolveStep eui b db) b = 1 ∧ deviceCount (resolveStep eui b db) eui = 1 := by
  constructor
  · have h1 := brandCount_upsertBrand db b (h.1 b)
    unfold resolveStep brandCount at *
    rw [upsertDevice_brands]
    exact h1
  · exact deviceCount_upsertDevice (upsertBrand db b) eui b ((wf_upsertBrand db b h).2 eui)

/-- Repeated identity resolution preserves the uniqueness invariant. -/
lemma resolveN_wf (eui b : JVal) : ∀ n (db : DB), wfDB db → wfDB (resolveN eui b n db)
  | 0, _, h => h
  | n + 1, db, h => resolveN_wf eui b n _ (wf_resolveStep eui b db h)

/-- After any positive number of identity resolutions for the same pair,
exactly one Brand row and one Device row exist for the keys. -/
lemma resolveN_counts (eui b : JVal) :
    ∀ n (db : DB), wfDB db → 1 ≤ n →
      brandCount (resolveN eui b n db) b = 1 ∧ deviceCount (resolveN eui b n db) eui = 1
  | 0, _, _, hn => absurd hn (by omega)
  | 1, db, h, _ => by
      simpa [resolveN] using resolveStep_counts eui b db h
  | n + 2, db, h, _ => by
      have hrec := resolveN_counts eui b (n + 1) (resolveStep eui b db)
        (wf_resolveStep eui b db h) (by omega)
      simpa [resolveN] using hrec

/-- C6: identity resolution is idempotent. Processing the same (eui,
brand) pair any positive number N of times leaves exactly one Brand row
keyed by brand_name and exactly one Device row keyed by device_eui (both
upserts are total functions of the state — no repetition can raise a
duplicate-key error); the state produced by on_message for a valid
message is exactly the Brand-then-Device upsert composition, and its
effect list issues the Brand upsert before the Device upsert. -/
theorem identity_resolution_idempotent
    (eui b : JVal) (db db2 : DB) (n : Nat)
    (sys : NaiveDt → Option String) (payload : JVal) (env : Envelope)
    (hwf : wfDB db) (hn : 1 ≤ n)
    (hext : extractEnvelope payload = .ok env)
    (hv : (truthy env.device_eui && truthy env.brand_name && truthy env.decoded_payload) = true)
    (heui : env.device_eui = eui) (hbr : env.brand_name = b) :
    brandCount (resolveN eui b n db) b = 1 ∧
    deviceCount (resolveN eui b n db) eui = 1 ∧
    (on_message sys noFail db2 (some payload)).db = resolveStep eui b db2 ∧
    (on_message sys noFail db2 (some payload)).effects.take 2 =
      [.brandUpsert b, .deviceUpsert eui b] := by
  have hcounts := resolveN_counts eui b n db hwf hn
  subst heui
  subst hbr
  have hv2 : truthy env.device_eui = true ∧ truthy env.brand_name = true ∧
      truthy env.decoded_payload = true := by
    simpa [Bool.and_eq_true, and_assoc] using hv
  obtain ⟨he1, he2, he3⟩ := hv2
  refine ⟨hcounts.1, hcounts.2, ?_, ?_⟩
  · rcases hsn : (upsertDevice (upsertBrand db2 env.brand_name) env.device_eui env.brand_name).2.sensor_name with _ | nm
    · simp [on_message, hext, hv, noFail, hsn, resolveStep]
    · by_cases ht : (pyEqStr env.brand_name "tektelic" && pyEqNum env.f_port 10) = true
      · cases hd : env.decoded_payload <;> rw [hd] at he3 <;>
          simp [on_message, hext, he1, he2, he3, noFail, hsn, ht, hd, resolveStep]
      · by_cases hel : pyEqStr env.brand_name "elsys" = true
        · cases hd : env.decoded_payload <;> rw [hd] at he3 <;>
            simp [on_message, hext, he1, he2, he3, noFail, hsn, ht, hel, hd, resolveStep]
        · simp [on_message, hext, hv, noFail, hsn, ht, hel, resolveStep]
  · rcases hsn : (upsertDevice (upsertBrand db2 env.brand_name) env.device_eui env.brand_name).2.sensor_name with _ | nm
    · simp [on_message, hext, hv, noFail, hsn]
    · by_cases ht : (pyEqStr env.brand_name "tektelic" && pyEqNum env.f_port 10) = true
      · cases hd : env.decoded_payload <;> rw [hd] at he3 <;>
          simp [on_message, hext, he1, he2, he3, noFail, hsn, ht, hd, List.take]
      · by_cases hel : pyEqStr env.brand_name "elsys" = true
        · cases hd : env.decoded_payload <;> rw [hd] at he3 <;>
            simp [on_message, hext, he1, he2, he3, noFail, hsn, ht, hel, hd, List.take]
        · simp [on_message, hext, hv, noFail, hsn, ht, hel]

/-- Fixture: C6 witness uplink. -/
def uplinkC6 : JVal := .obj [
  ("version_ids", .obj [("brand_id", .str "elsys")]),
  ("decoded_payload", .obj [("humidity", .num 5)])]

/-- Fixture: C6 witness envelope for device w6. -/
def envC6 : JVal := .obj [
  ("end_device_ids", .obj [("device_id", .str "w6")]),
  ("uplink_message", uplinkC6)]

/-- Witness for C6 at N = 3 from the empty database: one Brand row, one
Device row, and the Brand-before-Device effect order. -/
theorem identity_resolution_idempotent_witness :
    brandCount (resolveN (.str "w6") (.str "elsys") 3 dbEmpty) (.str "elsys") = 1 ∧
    deviceCount (resolveN (.str "w6") (.str "elsys") 3 dbEmpty) (.str "w6") = 1 ∧
    (on_message noSys noFail dbEmpty (some envC6)).db =
      resolveStep (.str "w6") (.str "elsys") dbEmpty ∧
    (on_message noSys noFail dbEmpty (some envC6)).effects.take 2 =
      [.brandUpsert (.str "elsys"), .deviceUpsert (.str "w6") (.str "elsys")] :=
  identity_resolution_idempotent (.str "w6") (.str "elsys") dbEmpty dbEmpty 3 noSys envC6
    ⟨.str "w6", uplinkC6, .str "elsys", .obj [("humidity", .num 5)], .null, .null⟩
    (by constructor <;> intro k <;> simp [brandCount, deviceCount, dbEmpty])
    (by omega) rfl rfl rfl rfl

/-- C3: the timestamp normalizer. Every string whose shape matches the
Z-suffix regex and whose fields pass the datetime range checks maps to the
America/New_York rendering of its UTC instant, independent of the
fraction digits (truncation to six or zero-padding cannot change the
outcome, since the output has second resolution); every non-null result
has the YYYY-MM-DD HH:MM:SS shape; the three spec examples compute as
stated, with null for the malformed and the empty input; and the two 2024
daylight-saving transitions are honoured on both sides (UTC-5 before
07:00 UTC on 2024-03-10 and after 06:00 UTC on 2024-11-03, UTC-4
between). -/
theorem to_est_normalizer
    (sys : NaiveDt → Option String) (ts : String)
    (y mo d h mi s : Nat) (frac : List Char)
    (hm : matchZ ts.data = some ((y, mo, d), (h, mi, s), frac))
    (hv : validDt y mo d h mi s = true) :
    to_est sys (.str ts) = some (toNY (epochSecs y mo d h mi s)) ∧
    (∀ t : Int, ∃ yy mm dd hh mn ss,
        toNY t = pad4 yy ++ "-" ++ pad2 mm ++ "-" ++ pad2 dd ++ " " ++
                 pad2 hh ++ ":" ++ pad2 mn ++ ":" ++ pad2 ss) ∧
    to_est sys (.str "2024-03-10T06:30:00Z") = some "2024-03-10 01:30:00" ∧
    to_est sys (.str "2024-07-04T16:00:00.123456Z") = some "2024-07-04 12:00:00" ∧
    to_est sys (.str "2024-07-04T16:00:00.1234567890Z") = some "2024-07-04 12:00:00" ∧
    to_est sys (.str "2024-07-04T16:00:00.1Z") = some "2024-07-04 12:00:00" ∧
    to_est sys (.str "not-a-date") = none ∧
    to_est sys (.str "") = none ∧
    to_est sys .null = none ∧
    to_est sys (.str "2024-03-10T06:59:59Z") = some "2024-03-10 01:59:59" ∧
    to_est sys (.str "2024-03-10T07:00:00Z") = some "2024-03-10 03:00:00" ∧
    to_est sys (.str "2024-11-03T05:59:59Z") = some "2024-11-03 01:59:59" ∧
    to_est sys (.str "2024-11-03T06:00:00Z") = some "2024-11-03 01:00:00" := by
  have hne : ts ≠ "" := by
    intro hh
    subst hh
    simp [matchZ, show ("" : String).data = [] from rfl] at hm
  refine ⟨?_, ?_, rfl, rfl, rfl, rfl, rfl, rfl, rfl, rfl, rfl, rfl, rfl⟩
  · simp [to_est, truthy, hne, hm, hv]
  · intro t
    exact ⟨((civilFromDays ((t + nyOffsetSecs t) / 86400)).1).toNat,
           ((civilFromDays ((t + nyOffsetSecs t) / 86400)).2.1).toNat,
           ((civilFromDays ((t + nyOffsetSecs t) / 86400)).2.2).toNat,
           ((t + nyOffsetSecs t) % 86400).toNat / 3600,
           ((t + nyOffsetSecs t) % 86400).toNat / 60 % 60,
           ((t + nyOffsetSecs t) % 86400).toNat % 60, rfl⟩

/-- Witness for C3 at the first spec example: parse, range check, and the
computed New York rendering. -/
theorem to_est_normalizer_witness :
    matchZ ("2024-03-10T06:30:00Z".data) = some ((2024, 3, 10), (6, 30, 0), []) ∧
    validDt 2024 3 10 6 30 0 = true ∧
    to_est noSys (.str "2024-03-10T06:30:00Z") = some (toNY (epochSecs 2024 3 10 6 30 0)) ∧
    toNY (epochSecs 2024 3 10 6 30 0) = "2024-03-10 01:30:00" :=
  ⟨by decide, by decide,
   (to_est_normalizer noSys "2024-03-10T06:30:00Z" 2024 3 10 6 30 0 [] (by decide) (by decide)).1,
   by decide⟩

/-- Fixture: C8 counterexample uplink whose received_at key is present
but empty. -/
def uplinkC8 : JVal := .obj [("received_at", .str "")]

/-- Fixture: C8 counterexample envelope with a truthy top-level
received_at. -/
def payloadC8 : JVal := .obj [("uplink_message", uplinkC8), ("received_at", .str "X")]

/-- Counterexample to C8 as stated: the uplink body's received_at key is
present (value ""), so the claimed presence-based precedence would select
"", but the code's Python-or falls through the falsy value and selects
the outer envelope's "X". -/
theorem received_at_presence_counterexample :
    extractEnvelope payloadC8 = .ok ⟨.null, uplinkC8, .null, .null, .str "X", .null⟩ ∧
    specReceivedAtPresence payloadC8 uplinkC8 = some (.str "") ∧
    codeReceivedAt payloadC8 uplinkC8 = .ok (.str "X") ∧
    (JVal.str "X") ≠ (.str "") := ⟨rfl, rfl, rfl, by decide⟩

/-- The rx_metadata scan realizes the truthiness-based precedence: on a
list of dict entries and a falsy running value it returns the first
truthy received_at-or-time hit (received_at preferred within an entry),
or a falsy leftover when no entry hits. -/
lemma scanMeta_truthy :
    ∀ (mds : List JVal) (acc : JVal),
      (∀ md ∈ mds, ∃ ks, md = JVal.obj ks) → truthy acc = false →
      ∃ v, scanMeta mds acc = .ok v ∧
        ((specScanTruthy mds = some v ∧ truthy v = true) ∨
         (specScanTruthy mds = none ∧ truthy v = false))
  | [], acc, _, hacc => ⟨acc, rfl, .inr ⟨rfl, hacc⟩⟩
  | md :: rest, acc, hobj, hacc => by
      obtain ⟨ks, hks⟩ := hobj md (by simp)
      subst hks
      by_cases hra : truthy ((jlookup ks "received_at").getD .null) = true
      · refine ⟨(jlookup ks "received_at").getD .null, ?_, .inl ⟨?_, hra⟩⟩
        · simp [scanMeta, pyGet, pyOr, Bind.bind, Except.bind, hra]
        · simp [specScanTruthy, jgetV, hra]
      · by_cases ht : truthy ((jlookup ks "time").getD .null) = true
        · refine ⟨(jlookup ks "time").getD .null, ?_, .inl ⟨?_, ht⟩⟩
          · simp [scanMeta, pyGet, pyOr, Bind.bind, Except.bind, hra, ht]
          · simp [specScanTruthy, jgetV, hra, ht]
        · have hacc2 : truthy (pyOr ((jlookup ks "received_at").getD .null)
              ((jlookup ks "time").getD .null)) = false := by
            simp [pyOr, hra, ht]
          obtain ⟨v, hsv, hrest⟩ := scanMeta_truthy rest _
            (fun md2 hm2 => hobj md2 (by simp [hm2])) hacc2
          refine ⟨v, ?_, ?_⟩
          · simpa [scanMeta, pyGet, pyOr, Bind.bind, Except.bind, hra, ht, hacc2] using hsv
          · simpa [specScanTruthy, jgetV, hra, ht] using hrest

/-- Amended C8: received_at_raw extraction follows truthiness-based (not
presence-based) precedence — the uplink body's received_at if truthy,
else the outer envelope's if truthy, else the first truthy received_at or
time among the rx_metadata dicts in order (received_at preferred within
an entry); when nothing is truthy the leftover value is falsy and is
treated as absent downstream. -/
theorem received_at_truthy_precedence
    (pk uk : List (String × JVal))
    (hrx : ∀ mds, jgetV (.obj uk) "rx_metadata" = .arr mds → ∀ md ∈ mds, ∃ ks, md = .obj ks)
    (hrx2 : (∃ mds, jgetV (.obj uk) "rx_metadata" = .arr mds) ∨
            truthy (jgetV (.obj uk) "rx_metadata") = false) :
    ∃ v, codeReceivedAt (.obj pk) (.obj uk) = .ok v ∧
      ((specReceivedAtTruthy (.obj pk) (.obj uk) = some v ∧ truthy v = true) ∨
       (specReceivedAtTruthy (.obj pk) (.obj uk) = none ∧ truthy v = false)) := by
  by_cases h0 : truthy ((jlookup uk "received_at").getD .null) = true
  · refine ⟨(jlookup uk "received_at").getD .null, ?_, .inl ⟨?_, h0⟩⟩
    · simp [codeReceivedAt, pyGet, pyOr, Bind.bind, Except.bind, pure, Except.pure, h0]
    · simp [specReceivedAtTruthy, jgetV, h0]
  · by_cases h1 : truthy ((jlookup pk "received_at").getD .null) = true
    · refine ⟨(jlookup pk "received_at").getD .null, ?_, .inl ⟨?_, h1⟩⟩
      · simp [codeReceivedAt, pyGet, pyOr, Bind.bind, Except.bind, pure, Except.pure, h0, h1]
      · simp [specReceivedAtTruthy, jgetV, h0, h1]
    · have hr0 : truthy (pyOr ((jlookup uk "received_at").getD .null)
          ((jlookup pk "received_at").getD .null)) = false := by
        simp [pyOr, h0, h1]
      rcases hrx2 with ⟨mds, hmds⟩ | hfal
      · have hmds2 : (jlookup uk "rx_metadata").getD .null = .arr mds := by
          simpa [jgetV] using hmds
        have hor : pyOr (.arr mds) (.arr []) = .arr mds := by
          by_cases hm : mds = []
          · subst hm
            rfl
          · simp [pyOr, truthy, hm]
        obtain ⟨v, hsv, hcase⟩ := scanMeta_truthy mds _ (hrx mds hmds) hr0
        refine ⟨v, ?_, ?_⟩
        · simp only [codeReceivedAt, pyGet, Bind.bind, Except.bind, hr0, hmds2, hor,
                     if_false, Bool.false_eq_true]
          exact hsv
        · rcases hcase with ⟨hspec, htr⟩ | ⟨hspec, htr⟩
          · exact .inl ⟨by simp [specReceivedAtTruthy, jgetV, h0, h1, hmds2, hspec], htr⟩
          · exact .inr ⟨by simp [specReceivedAtTruthy, jgetV, h0, h1, hmds2, hspec], htr⟩
      · have hfal2 : truthy ((jlookup uk "rx_metadata").getD .null) = false := by
          simpa [jgetV] using hfal
        have hor : pyOr ((jlookup uk "rx_metadata").getD .null) (.arr []) = .arr [] := by
          simp [pyOr, hfal2]
        refine ⟨pyOr ((jlookup uk "received_at").getD .null)
            ((jlookup pk "received_at").getD .null), ?_, .inr ⟨?_, hr0⟩⟩
        · simp only [codeReceivedAt, pyGet, Bind.bind, Except.bind, hr0, hor,
                     if_false, Bool.false_eq_true]
          rfl
        · rcases hv2 : (jlookup uk "rx_metadata").getD .null with _ | b | q | st | xs | kvs <;>
            simp [specReceivedAtTruthy, jgetV, h0, h1, hv2] <;>
            rw [hv2] at hfal2
          · simp [truthy] at hfal2
            simp [hfal2, specScanTruthy]

/-- Fixture: C8 witness uplink whose first rx_metadata entry exposes
nothing and whose second exposes a truthy time. -/
def ukC8w : List (String × JVal) :=
  [("rx_metadata", .arr [.obj [("x", .num 1)], .obj [("time", .str "tv")]])]

/-- Witness for the amended C8 at a concrete two-entry rx_metadata scan. -/
theorem received_at_truthy_precedence_witness :
    ∃ v, codeReceivedAt (.obj []) (.obj ukC8w) = .ok v ∧
      ((specReceivedAtTruthy (.obj []) (.obj ukC8w) = some v ∧ truthy v = true) ∨
       (specReceivedAtTruthy (.obj []) (.obj ukC8w) = none ∧ truthy v = false)) :=
  received_at_truthy_precedence [] ukC8w
    (by
      intro mds hm
      have hm2 : JVal.arr [.obj [("x", .num 1)], .obj [("time", .str "tv")]] = .arr mds := hm
      injection hm2 with h
      subst h
      intro md hmd
      simp at hmd
      rcases hmd with h | h <;> subst h
      · exact ⟨[("x", .num 1)], rfl⟩
      · exact ⟨[("time", .str "tv")], rfl⟩)
    (.inl ⟨[.obj [("x", .num 1)], .obj [("time", .str "tv")]], rfl⟩)

/-- Store behaviour in which only the ClimateReadings insert raises
(writer failure). -/
def sfClimFail : StoreCall → Bool
  | .climateIns => true
  | _ => false

/-- The ingestion loop yields exactly one outcome per message: no message
can halt it or swallow its siblings. -/
lemma runLoop_length (sys : NaiveDt → Option String) :
    ∀ (db : DB) (ms : List (Option JVal × (StoreCall → Bool))),
      (runLoop sys db ms).2.length = ms.length
  | _, [] => rfl
  | db, (m, sf) :: rest => by
      simp [runLoop, runLoop_length sys _ rest]

/-- Fixture: C9 counterexample message that carries device_id and
decoded_payload but no brand_id. -/
def payloadC9 : JVal := .obj [
  ("end_device_ids", .obj [("device_id", .str "d9")]),
  ("uplink_message", .obj [("decoded_payload", .obj [("x", .num 1)])])]

/-- Counterexample to C9 as stated: a message missing a required field
(brand_id here) is discarded with NO diagnostic log entry — the line 64
return is bare, reached before the first print — contradicting the claim
that each failure condition emits a diagnostic. -/
theorem silent_skip_counterexample :
    on_message noSys noFail dbEmpty (some payloadC9) = ⟨dbEmpty, [], []⟩ ∧
    (on_message noSys noFail dbEmpty (some payloadC9)).logs = [] ∧
    (on_message noSys noFail dbEmpty (some payloadC9)).effects = [] := ⟨rfl, rfl, rfl⟩

/-- Amended C9: every failure condition discards only its own message and
never raises out of on_message or halts the loop (the loop yields one
outcome per message and processes the tail from the returned state
whatever the head's outcome); decode failure, extraction type errors,
null sensor_name, routing miss and writer failure each emit a diagnostic
log entry — but a missing required field is discarded silently, with no
log entry and no writes. -/
theorem failure_containment :
    (∀ sys (db : DB) ms, (runLoop sys db ms).2.length = ms.length) ∧
    (∀ sys sf (db : DB), on_message sys sf db none = ⟨db, [], [.errorOccurred]⟩) ∧
    (∀ sys sf (db : DB) payload, extractEnvelope payload = .error () →
        on_message sys sf db (some payload) = ⟨db, [], [.errorOccurred]⟩) ∧
    (∀ sys sf (db : DB) payload env, extractEnvelope payload = .ok env →
        (truthy env.device_eui && truthy env.brand_name && truthy env.decoded_payload) = false →
        on_message sys sf db (some payload) = ⟨db, [], []⟩) ∧
    (∀ sys (db : DB) payload env, extractEnvelope payload = .ok env →
        (truthy env.device_eui && truthy env.brand_name && truthy env.decoded_payload) = true →
        (upsertDevice (upsertBrand db env.brand_name) env.device_eui
            env.brand_name).2.sensor_name = none →
        on_message sys noFail db (some payload) =
          { db := resolveStep env.device_eui env.brand_name db,
            effects := [.brandUpsert env.brand_name,
                        .deviceUpsert env.device_eui env.brand_name],
            logs := [.processing env.device_eui env.brand_name,
                     .skipNoSensorName env.device_eui] }) ∧
    (∀ sys (db : DB) payload env name, extractEnvelope payload = .ok env →
        (truthy env.device_eui && truthy env.brand_name && truthy env.decoded_payload) = true →
        (upsertDevice (upsertBrand db env.brand_name) env.device_eui
            env.brand_name).2.sensor_name = some name →
        (pyEqStr env.brand_name "tektelic" && pyEqNum env.f_port 10) = false →
        pyEqStr env.brand_name "elsys" = false →
        on_message sys noFail db (some payload) =
          { db := resolveStep env.device_eui env.brand_name db,
            effects := [.brandUpsert env.brand_name,
                        .deviceUpsert env.device_eui env.brand_name],
            logs := [.processing env.device_eui env.brand_name,
                     .noHandler env.brand_name] }) ∧
    (∀ sys (db : DB) payload env kvs name, extractEnvelope payload = .ok env →
        truthy env.device_eui = true →
        env.brand_name = .str "elsys" →
        env.decoded_payload = .obj kvs → kvs ≠ [] →
        (upsertDevice (upsertBrand db env.brand_name) env.device_eui
            env.brand_name).2.sensor_name = some name →
        on_message sys sfClimFail db (some payload) =
          { db := resolveStep env.device_eui (.str "elsys") db,
            effects := [.brandUpsert (.str "elsys"),
                        .deviceUpsert env.device_eui (.str "elsys")],
            logs := [.processing env.device_eui (.str "elsys"), .elsysFound,
                     .errorOccurred] }) ∧
    (∀ sys sf (db : DB) m rest, runLoop sys db ((m, sf) :: rest) =
        ((runLoop sys (on_message sys sf db m).db rest).1,
         on_message sys sf db m :: (runLoop sys (on_message sys sf db m).db rest).2)) := by
  refine ⟨runLoop_length, fun _ _ _ => rfl, ?_, ?_, ?_, ?_, ?_, fun _ _ _ _ _ => rfl⟩
  · intro sys sf db payload hext
    simp [on_message, hext]
  · intro sys sf db payload env hext hv
    simp [on_message, hext, hv]
  · intro sys db payload env hext hv hsn
    simp [on_message, hext, hv, noFail, hsn, resolveStep]
  · intro sys db payload env name hext hv hsn hnt hne
    simp [on_message, hext, hv, noFail, hsn, hnt, hne, resolveStep]
  · intro sys db payload env kvs name hext he hb hp hne hsn
    rw [hb] at hsn
    have hbT : truthy env.brand_name = true := by rw [hb]; rfl
    have hdT : truthy env.decoded_payload = true := by rw [hp]; simp [truthy, hne]
    simp [on_message, hext, he, hbT, hdT, hb, hp, pyEqStr, pyEqNum, sfClimFail, hsn,
          resolveStep]
    exact ⟨rfl, by simp [truthy, hne]⟩

/-- Fixture: C9 witness uplink (elsys). -/
def uplinkC9w : JVal := .obj [
  ("version_ids", .obj [("brand_id", .str "elsys")]),
  ("decoded_payload", .obj [("co2", .num 4)])]

/-- Fixture: C9 witness envelope. -/
def envC9w : JVal := .obj [
  ("end_device_ids", .obj [("device_id", .str "e9")]),
  ("uplink_message", uplinkC9w)]

/-- Fixture: C9 witness database with a named device. -/
def dbC9w : DB := ⟨[.str "elsys"], [⟨.str "e9", .str "elsys", some "Room-9"⟩]⟩

/-- Witness for C9: the decode-failure diagnostic, and a writer failure
that keeps the identity upserts, emits the error diagnostic, inserts
nothing, and leaves the handler normally. -/
theorem failure_containment_witness :
    on_message noSys noFail dbEmpty none = ⟨dbEmpty, [], [.errorOccurred]⟩ ∧
    on_message noSys sfClimFail dbC9w (some envC9w) =
      { db := dbC9w,
        effects := [.brandUpsert (.str "elsys"), .deviceUpsert (.str "e9") (.str "elsys")],
        logs := [.processing (.str "e9") (.str "elsys"), .elsysFound, .errorOccurred] } :=
  ⟨failure_containment.2.1 noSys noFail dbEmpty,
   failure_containment.2.2.2.2.2.2.1 noSys dbC9w envC9w
     ⟨.str "e9", uplinkC9w, .str "elsys", .obj [("co2", .num 4)], .null, .null⟩
     [("co2", .num 4)] "Room-9" rfl rfl rfl rfl (by decide) rfl⟩
